import Mathlib

/-!
Shallow embedding of the Calorie-tracker repository's nutrition aggregation
layer, search unifier, and the water-intake / custom-food / Indian-food
storage operations, translated from:

  * client/src/hooks/useNutritionApi.ts (source adapters, search unifier),
  * the TrackFoodForm component (nutrition calculator, custom-food search,
    micro-nutrient display),
  * the Express route registrations (batch creation, water-intake PATCH),
  * DatabaseStorage (storage operations over the backing store).

Numeric values (nutrient amounts, quantities, water amounts) are embedded as
rationals; record ids as naturals; the backing store as a list of records.
JavaScript truthiness idioms (`x || d`, `trim`, `toLowerCase`, `includes`,
`Math.round`) are embedded by explicit executable functions below.
-/

/-- JavaScript `x || d` for an optional numeric value: `undefined`/`null` and
`0` are falsy, every other number is truthy. -/
def jsOrNum (x : Option ℚ) (d : ℚ) : ℚ :=
  match x with
  | none => d
  | some v => if v = 0 then d else v

/-- JavaScript `s || d` for an optional string value: `undefined`/`null` and
the empty string are falsy. -/
def jsOrStr (x : Option String) (d : String) : String :=
  match x with
  | none => d
  | some s => if s = "" then d else s

/-- JavaScript `String.prototype.trim`: strip leading and trailing
whitespace. -/
def jsTrim (s : String) : String :=
  ⟨((s.data.dropWhile Char.isWhitespace).reverse.dropWhile Char.isWhitespace).reverse⟩

/-- JavaScript `String.prototype.toLowerCase` (ASCII fragment used by the
food names in this code base). -/
def jsToLower (s : String) : String := ⟨s.data.map Char.toLower⟩

/-- JavaScript `String.prototype.includes`: substring containment. -/
def jsIncludes (s pat : String) : Bool :=
  s.data.tails.any (fun t => pat.data.isPrefixOf t)

/-- JavaScript `Math.round`: round half toward positive infinity. -/
def jsRound (x : ℚ) : ℤ := ⌊x + 1/2⌋

/-- One entry of the `nutrients` array of a `FoodSearchResult`
(`{nutrientId, nutrientName, nutrientNumber, unitName, value}`). -/
structure FoodNutrient where
  nutrientId : ℕ
  nutrientName : String
  nutrientNumber : String
  unitName : String
  value : ℚ
deriving DecidableEq

/-- The canonical `FoodSearchResult` shape produced by every source adapter
(TrackFoodForm's `FoodSearchResult` type). -/
structure FoodSearchResult where
  fdcId : String
  description : String
  nutrients : List FoodNutrient
  foodGroup : Option String := none
  foodCode : Option String := none
  isIndianFood : Bool := false
  isCustomFood : Bool := false
deriving DecidableEq

/-- A record of the curated Indian-foods table. Nutrient fields are optional
so that a record can "miss" a native field (JS `undefined`/`null`), which the
adapter defends against with `|| 0`. -/
structure IndianFood where
  id : ℕ
  foodName : Option String := none
  calories : Option ℚ := none
  protein : Option ℚ := none
  carbs : Option ℚ := none
  fat : Option ℚ := none
  fiber : Option ℚ := none
  calcium : Option ℚ := none
  iron : Option ℚ := none
  foodGroup : Option String := none
  foodCode : Option String := none
deriving DecidableEq

/-- A user-defined custom food record (owned by `userId`). The stored record
carries fiber/calcium/iron per 100 units as well, but the adapter below does
not read them. -/
structure CustomFood where
  id : ℕ
  userId : ℕ
  foodName : String
  calories : ℚ
  protein : ℚ
  carbs : ℚ
  fat : ℚ
  fiber : ℚ := 0
  calcium : ℚ := 0
  iron : ℚ := 0
  foodGroup : Option String := none
deriving DecidableEq

/-- `convertIndianFoodToSearchResult` (useNutritionApi.ts): curated-source
adapter. A null record (`!food`) yields the "Invalid food data" placeholder;
otherwise the seven canonical nutrient slots are filled, each native field
defaulted with `|| 0`, and the id is tagged with the `indian-` source tag. -/
def convertIndianFoodToSearchResult (food : Option IndianFood) : FoodSearchResult :=
  match food with
  | none =>
    { fdcId := "invalid-food"
      description := "Invalid food data"
      nutrients := []
      isIndianFood := true }
  | some food =>
    { fdcId := "indian-" ++ Nat.repr food.id
      description := jsOrStr food.foodName "Unknown Indian Food"
      nutrients := [
        ⟨1008, "Energy", "208", "kcal", jsOrNum food.calories 0⟩,
        ⟨1003, "Protein", "203", "g", jsOrNum food.protein 0⟩,
        ⟨1005, "Carbohydrates", "205", "g", jsOrNum food.carbs 0⟩,
        ⟨1004, "Total lipid (fat)", "204", "g", jsOrNum food.fat 0⟩,
        ⟨1079, "Fiber", "291", "g", jsOrNum food.fiber 0⟩,
        ⟨1087, "Calcium", "301", "mg", jsOrNum food.calcium 0⟩,
        ⟨1089, "Iron", "303", "mg", jsOrNum food.iron 0⟩]
      foodGroup := some (jsOrStr food.foodGroup "Indian Foods")
      foodCode := food.foodCode
      isIndianFood := true }

/-- `convertCustomFoodToSearchResult` (TrackFoodForm): custom-source adapter.
It emits only the four macro slots, reads the record fields directly (no
`|| 0` defaulting and no null guard), and tags the id with `custom-`. -/
def convertCustomFoodToSearchResult (food : CustomFood) : FoodSearchResult :=
  { fdcId := "custom-" ++ Nat.repr food.id
    description := food.foodName
    nutrients := [
      ⟨1008, "Energy", "208", "kcal", food.calories⟩,
      ⟨1003, "Protein", "203", "g", food.protein⟩,
      ⟨1005, "Carbohydrates", "205", "g", food.carbs⟩,
      ⟨1004, "Total lipid (fat)", "204", "g", food.fat⟩]
    foodGroup := some (jsOrStr food.foodGroup "Custom Foods")
    isCustomFood := true }

/-- A USDA search result passes through the unifier unconverted; its id is
the upstream numeric `fdcId` rendered as a decimal string. -/
def usdaFdcId (fdcId : ℕ) : String := Nat.repr fdcId

/-- `getNutrientValue` (TrackFoodForm): value of the nutrient with the given
canonical id, or `0` when no entry with that id exists. -/
def getNutrientValue (nutrients : List FoodNutrient) (nid : ℕ) : ℚ :=
  match nutrients.find? (fun n => n.nutrientId == nid) with
  | some n => n.value
  | none => 0

/-- The four macro values returned by `calculateNutrition`. -/
structure MacroTotals where
  calories : ℚ
  protein : ℚ
  carbs : ℚ
  fat : ℚ
deriving DecidableEq

/-- `calculateNutrition` (TrackFoodForm): each macro is the looked-up
per-100 value times the multiplier. -/
def calculateNutrition (food : FoodSearchResult) (multiplier : ℚ) : MacroTotals :=
  { calories := getNutrientValue food.nutrients 1008 * multiplier
    protein := getNutrientValue food.nutrients 1003 * multiplier
    carbs := getNutrientValue food.nutrients 1005 * multiplier
    fat := getNutrientValue food.nutrients 1004 * multiplier }

/-- The logged food entry posted to `/api/food-items` (`FoodItem` sans id). -/
structure FoodItemEntry where
  userId : ℕ
  foodName : String
  quantity : ℚ
  unit : String
  calories : ℚ
  protein : ℚ
  carbs : ℚ
  fat : ℚ
  mealType : String
  date : String
  fdcId : String
deriving DecidableEq

/-- `handleAddFood` (TrackFoodForm), the part that builds the logged entry
from the selected food: `multiplier = quantity / 100` and the macros come
from `calculateNutrition`. -/
def handleAddFood (userId : ℕ) (selectedFood : FoodSearchResult) (quantity : ℚ)
    (unit mealType date : String) : FoodItemEntry :=
  let multiplier := quantity / 100
  let n := calculateNutrition selectedFood multiplier
  { userId := userId
    foodName := selectedFood.description
    quantity := quantity
    unit := unit
    calories := n.calories
    protein := n.protein
    carbs := n.carbs
    fat := n.fat
    mealType := mealType
    date := date
    fdcId := selectedFood.fdcId }

/-- Outcome of an awaited asynchronous source call: either a resolved value
or a rejection. -/
def jsCatch {α : Type} (outcome : Except Unit α) (fallback : α) : α :=
  match outcome with
  | .ok a => a
  | .error _ => fallback

/-- `searchAllFoods` (useNutritionApi.ts): short queries (`!query` or trimmed
length < 2) short-circuit to `[]`; otherwise the USDA and curated sources are
queried in parallel, each individually guarded by `.catch(() => [])`, the
curated records are adapted, and the lists are concatenated with the curated
results first. -/
def searchAllFoods (query : String) (usdaOutcome : Except Unit (List FoodSearchResult))
    (indianOutcome : Except Unit (List IndianFood)) : List FoodSearchResult :=
  if query = "" ∨ (jsTrim query).length < 2 then []
  else
    let usda := jsCatch usdaOutcome []
    let indian := jsCatch indianOutcome []
    let formattedIndianFoods := indian.map (fun f => convertIndianFoodToSearchResult (some f))
    formattedIndianFoods ++ usda

/-- The custom-food query match used by TrackFoodForm:
`food.foodName.toLowerCase().includes(searchQuery.toLowerCase())`. -/
def customFoodMatches (food : CustomFood) (searchQuery : String) : Bool :=
  jsIncludes (jsToLower food.foodName) (jsToLower searchQuery)

/-- The `mode = all` branch of TrackFoodForm's debounced search effect:
for a query of length ≥ 2, run `searchAllFoods` and, when the custom-food
query has data, prepend the matching custom foods converted to search
results. -/
def trackFormAllSearch (searchQuery : String) (customFoods : Option (List CustomFood))
    (usdaOutcome : Except Unit (List FoodSearchResult))
    (indianOutcome : Except Unit (List IndianFood)) : List FoodSearchResult :=
  if searchQuery.length < 2 then []
  else
    let results := searchAllFoods searchQuery usdaOutcome indianOutcome
    match customFoods with
    | some cfs =>
      let filteredCustomFoods := cfs.filter (fun food => customFoodMatches food searchQuery)
      let customResults := filteredCustomFoods.map convertCustomFoodToSearchResult
      customResults ++ results
    | none => results

/-- The micro-nutrient section of TrackFoodForm's selected-food panel.
`none` means the corresponding field is not rendered. -/
structure MicroNutrientDisplay where
  fiber : Option ℤ
  calcium : Option ℤ
  iron : Option ℤ
deriving DecidableEq

/-- TrackFoodForm's micro-nutrient display: the whole block is gated on the
raw (per-100, unscaled) fiber value being positive; inside it, calcium and
iron are each gated on their own raw value; every rendered number is
`Math.round(raw * (quantity / 100))`. -/
def microNutrientDisplay (food : FoodSearchResult) (quantity : ℚ) : MicroNutrientDisplay :=
  if 0 < getNutrientValue food.nutrients 1079 then
    { fiber := some (jsRound (getNutrientValue food.nutrients 1079 * (quantity / 100)))
      calcium :=
        if 0 < getNutrientValue food.nutrients 1087 then
          some (jsRound (getNutrientValue food.nutrients 1087 * (quantity / 100)))
        else none
      iron :=
        if 0 < getNutrientValue food.nutrients 1089 then
          some (jsRound (getNutrientValue food.nutrients 1089 * (quantity / 100)))
        else none }
  else ⟨none, none, none⟩

/-- A row of the `water_intake` table. -/
structure WaterIntakeRecord where
  id : ℕ
  userId : ℕ
  date : String
  amount : ℚ
  goal : ℚ
deriving DecidableEq

/-- The parsed body of a water-intake upsert (`InsertWaterIntake`). -/
structure InsertWaterIntake where
  userId : ℕ
  date : String
  amount : ℚ
  goal : ℚ
deriving DecidableEq

/-- `DatabaseStorage.getWaterIntake`: first stored row matching
`(userId, date)`. -/
def getWaterIntake (store : List WaterIntakeRecord) (userId : ℕ) (date : String) :
    Option WaterIntakeRecord :=
  store.find? (fun r => r.userId == userId && r.date == date)

/-- The write half of `createOrUpdateWaterIntake`, parameterised by the
record the preceding read observed: update the observed row's amount/goal in
place, or insert a fresh row when the read observed nothing. -/
def upsertWrite (store : List WaterIntakeRecord) (data : InsertWaterIntake)
    (observed : Option WaterIntakeRecord) (freshId : ℕ) : List WaterIntakeRecord :=
  match observed with
  | some existing =>
    store.map (fun r =>
      if r.id == existing.id then { r with amount := data.amount, goal := data.goal } else r)
  | none => store ++ [⟨freshId, data.userId, data.date, data.amount, data.goal⟩]

/-- `DatabaseStorage.createOrUpdateWaterIntake` run in isolation: the read
(`getWaterIntake`) immediately followed by the write. -/
def createOrUpdateWaterIntake (store : List WaterIntakeRecord) (data : InsertWaterIntake)
    (freshId : ℕ) : List WaterIntakeRecord :=
  upsertWrite store data (getWaterIntake store data.userId data.date) freshId

/-- Two concurrent `createOrUpdateWaterIntake` calls under the interleaving
in which both suspended reads complete against the initial store before
either write runs (both database awaits are suspension points, so this
interleaving is schedulable). -/
def twoConcurrentUpserts (store : List WaterIntakeRecord) (data1 data2 : InsertWaterIntake)
    (id1 id2 : ℕ) : List WaterIntakeRecord :=
  let observed1 := getWaterIntake store data1.userId data1.date
  let observed2 := getWaterIntake store data2.userId data2.date
  let afterFirstWrite := upsertWrite store data1 observed1 id1
  upsertWrite afterFirstWrite data2 observed2 id2

/-- `PATCH /water-intake/:id` (routes): locate the row by id (404 when
absent), rebuild the upsert body keeping the row's userId and date, taking
`req.body.amount || existing.amount` and `req.body.goal || existing.goal`,
and re-route it through `createOrUpdateWaterIntake`. -/
def patchWaterIntake (store : List WaterIntakeRecord) (rid : ℕ)
    (bodyAmount bodyGoal : Option ℚ) (freshId : ℕ) : ℕ × List WaterIntakeRecord :=
  match store.find? (fun r => r.id == rid) with
  | none => (404, store)
  | some existing =>
    let updatedData : InsertWaterIntake :=
      { userId := existing.userId
        date := existing.date
        amount := jsOrNum bodyAmount existing.amount
        goal := jsOrNum bodyGoal existing.goal }
    (200, createOrUpdateWaterIntake store updatedData freshId)

/-- `DatabaseStorage.createManyIndianFoods`: the empty batch writes nothing,
a non-empty batch is inserted by one statement. Returns the new store. -/
def createManyIndianFoods {Food : Type} (store : List Food) (foods : List Food) : List Food :=
  if foods.isEmpty then store else store ++ foods

/-- `foods.map(food => insertIndianFoodSchema.parse(food))`: JavaScript map
with a throwing callback — the first invalid element aborts the whole map
with its validation error, before any later element is looked at. -/
def parseAll {Raw Food : Type} (parse : Raw → Except String Food) :
    List Raw → Except String (List Food)
  | [] => .ok []
  | f :: fs =>
    match parse f with
    | .error msg => .error msg
    | .ok v =>
      match parseAll parse fs with
      | .error msg => .error msg
      | .ok vs => .ok (v :: vs)

/-- `POST /indian-foods/batch` (routes): a non-array body is rejected with
400; otherwise every element is validated with `insertIndianFoodSchema.parse`
(`foods.map(...)`, which throws on the first invalid element) before
`createManyIndianFoods` runs; any thrown validation error is answered with
400 and reaches the store not at all. Returns (status, new store). -/
def indianFoodsBatchHandler {Raw Food : Type} (parse : Raw → Except String Food)
    (store : List Food) (body : Option (List Raw)) : ℕ × List Food :=
  match body with
  | none => (400, store)
  | some foods =>
    match parseAll parse foods with
    | .error _ => (400, store)
    | .ok validatedFoods => (201, createManyIndianFoods store validatedFoods)

/-- Insertion step of the name ordering used by `getCustomFoods`
(`orderBy(customFoods.foodName)`). -/
def insertByFoodName (f : CustomFood) : List CustomFood → List CustomFood
  | [] => [f]
  | g :: gs => if f.foodName ≤ g.foodName then f :: g :: gs else g :: insertByFoodName f gs

/-- Name ordering used by `getCustomFoods`. -/
def sortByFoodName : List CustomFood → List CustomFood
  | [] => []
  | f :: fs => insertByFoodName f (sortByFoodName fs)

/-- `DatabaseStorage.getCustomFoods`: all rows with the requested `userId`,
ordered by food name. -/
def getCustomFoods (store : List CustomFood) (userId : ℕ) : List CustomFood :=
  sortByFoodName (store.filter (fun f => f.userId == userId))

/-- `DatabaseStorage.searchCustomFoods`: rows with the requested `userId`
whose name matches the query case-insensitively (`ilike %query%`), limited
to 20. -/
def searchCustomFoods (store : List CustomFood) (userId : ℕ) (query : String) :
    List CustomFood :=
  (store.filter (fun f => f.userId == userId && jsIncludes (jsToLower f.foodName) (jsToLower query))).take 20

/-- `DatabaseStorage.getCustomFoodById`: the row with the given id; the query
carries no user filter. -/
def getCustomFoodById (store : List CustomFood) (id : ℕ) : Option CustomFood :=
  store.find? (fun f => f.id == id)

/-- A search result whose calories slot holds 50 per 100 units (and protein 4
per 100 units), used to evaluate the serving computation concretely. -/
def caloriesFiftyFood : FoodSearchResult :=
  { fdcId := "indian-9", description := "ghee rice",
    nutrients := [⟨1008, "Energy", "208", "kcal", 50⟩, ⟨1003, "Protein", "203", "g", 4⟩] }

/-- A water-intake upsert body used to exercise the read-then-write race. -/
def raceDayUpsert : InsertWaterIntake :=
  { userId := 1, date := "2024-05-01", amount := 250, goal := 2000 }

/-- A custom food whose name matches the query "dal". -/
def dalCustomFood : CustomFood :=
  { id := 5, userId := 1, foodName := "dal", calories := 150, protein := 9,
    carbs := 20, fat := 3 }

/-- A curated record whose name matches the query "dal". -/
def dalIndianFood : IndianFood :=
  { id := 5, foodName := some "dal", calories := some 120 }

/-- A USDA result for the query "dal" (same display name as the other two:
the unifier does not deduplicate by name). -/
def dalUsdaResult : FoodSearchResult :=
  { fdcId := "2262074", description := "dal", nutrients := [] }

/-- A custom food whose stored record has non-zero fiber, calcium and iron
per 100 units. -/
def paneerCustomFood : CustomFood :=
  { id := 5, userId := 1, foodName := "paneer", calories := 300, protein := 20,
    carbs := 6, fat := 22, fiber := 4, calcium := 200, iron := 2 }

/-- A search result carrying a calcium slot of 5 per 100 units and no fiber
entry at all. -/
def calciumOnlyFood : FoodSearchResult :=
  { fdcId := "indian-3", description := "milk",
    nutrients := [⟨1087, "Calcium", "301", "mg", 5⟩] }

/-- A search result with positive fiber and calcium slots. -/
def fiberCalciumFood : FoodSearchResult :=
  { fdcId := "indian-4", description := "spinach",
    nutrients := [⟨1079, "Fiber", "291", "g", 4⟩, ⟨1087, "Calcium", "301", "mg", 5⟩] }

/-- A custom food owned by user 2. -/
def bobCustomFood : CustomFood :=
  { id := 7, userId := 2, foodName := "secret smoothie", calories := 200,
    protein := 5, carbs := 30, fat := 6 }

/-- A custom food owned by user 1. -/
def aliceCustomFood : CustomFood :=
  { id := 8, userId := 1, foodName := "avocado toast", calories := 250,
    protein := 7, carbs := 25, fat := 14 }

/-- A concrete stand-in for `insertIndianFoodSchema.parse` over natural
numbers: values below 10 validate, larger ones fail. -/
def demoParse : ℕ → Except String ℕ :=
  fun n => if n < 10 then .ok n else .error "invalid food"

/-- The stored water-intake row that the PATCH scenarios start from. -/
def priorWaterRecord : WaterIntakeRecord :=
  { id := 1, userId := 1, date := "2024-05-01", amount := 500, goal := 2000 }

/-! Helper lemmas. -/

lemma ne_of_data_ne (s t : String) (h : s.data ≠ t.data) : s ≠ t :=
  fun he => h (he ▸ rfl)

lemma digitChar_isDigit_of_lt_ten : ∀ d < 10, (Nat.digitChar d).isDigit = true := by
  decide

lemma toDigitsCore_all_digits :
    ∀ (fuel n : ℕ) (ds : List Char), (∀ c ∈ ds, c.isDigit = true) →
      ∀ c ∈ Nat.toDigitsCore 10 fuel n ds, c.isDigit = true := by
  intro fuel
  induction fuel with
  | zero => intro n ds h; simpa [Nat.toDigitsCore] using h
  | succ f ih =>
    intro n ds h c hc
    rw [Nat.toDigitsCore] at hc
    by_cases h0 : n / 10 = 0
    · rw [if_pos h0] at hc
      rcases List.mem_cons.mp hc with rfl | hcds
      · exact digitChar_isDigit_of_lt_ten _ (Nat.mod_lt _ (by norm_num))
      · exact h c hcds
    · rw [if_neg h0] at hc
      refine ih (n / 10) _ ?_ c hc
      intro d hd
      rcases List.mem_cons.mp hd with rfl | hdds
      · exact digitChar_isDigit_of_lt_ten _ (Nat.mod_lt _ (by norm_num))
      · exact h d hdds

lemma toDigitsCore_cons :
    ∀ (fuel n : ℕ) (ds : List Char), ∃ c cs, Nat.toDigitsCore 10 (fuel + 1) n ds = c :: cs := by
  intro fuel
  induction fuel with
  | zero =>
    intro n ds
    rw [Nat.toDigitsCore]
    by_cases h0 : n / 10 = 0
    · rw [if_pos h0]; exact ⟨_, _, rfl⟩
    · rw [if_neg h0, Nat.toDigitsCore]; exact ⟨_, _, rfl⟩
  | succ f ih =>
    intro n ds
    rw [Nat.toDigitsCore]
    by_cases h0 : n / 10 = 0
    · rw [if_pos h0]; exact ⟨_, _, rfl⟩
    · rw [if_neg h0]; exact ih (n / 10) _

lemma repr_head_isDigit (n : ℕ) :
    ∃ c cs, (Nat.repr n).data = c :: cs ∧ c.isDigit = true := by
  obtain ⟨c, cs, hc⟩ := toDigitsCore_cons n n []
  refine ⟨c, cs, hc, ?_⟩
  exact toDigitsCore_all_digits (n + 1) n [] (by simp) c (by rw [hc]; exact List.mem_cons_self _ _)

lemma exists_error_parseAll {Raw Food : Type} (parse : Raw → Except String Food) :
    ∀ (foods : List Raw), (∃ f ∈ foods, ∃ msg, parse f = .error msg) →
      ∃ msg, parseAll parse foods = .error msg := by
  intro foods
  induction foods with
  | nil => rintro ⟨f, hf, _⟩; cases hf
  | cons a l ih =>
    rintro ⟨f, hf, msg, hmsg⟩
    cases hpa : parse a with
    | error m => exact ⟨m, by simp [parseAll, hpa]⟩
    | ok b =>
      rcases List.mem_cons.mp hf with rfl | hfl
      · rw [hpa] at hmsg; exact absurd hmsg (by simp)
      · obtain ⟨m, hm⟩ := ih ⟨f, hfl, msg, hmsg⟩
        exact ⟨m, by simp [parseAll, hpa, hm]⟩

lemma mem_insertByFoodName {g f : CustomFood} :
    ∀ {l : List CustomFood}, g ∈ insertByFoodName f l → g = f ∨ g ∈ l := by
  intro l
  induction l with
  | nil => intro h; exact Or.inl (by simpa [insertByFoodName] using h)
  | cons a as ih =>
    intro h
    rw [insertByFoodName] at h
    by_cases hle : f.foodName ≤ a.foodName
    · rw [if_pos hle] at h
      rcases List.mem_cons.mp h with rfl | h2
      · exact Or.inl rfl
      · exact Or.inr h2
    · rw [if_neg hle] at h
      rcases List.mem_cons.mp h with rfl | h2
      · exact Or.inr (List.mem_cons_self _ _)
      · rcases ih h2 with h3 | h3
        · exact Or.inl h3
        · exact Or.inr (List.mem_cons_of_mem _ h3)

lemma mem_sortByFoodName {g : CustomFood} :
    ∀ {l : List CustomFood}, g ∈ sortByFoodName l → g ∈ l := by
  intro l
  induction l with
  | nil => intro h; simp [sortByFoodName] at h
  | cons a as ih =>
    intro h
    rw [sortByFoodName] at h
    rcases mem_insertByFoodName h with rfl | h2
    · exact List.mem_cons_self _ _
    · exact List.mem_cons_of_mem _ (ih h2)

/-! Claim theorems. -/

/-- Claim C1: for every search result and quantity, each macro of the logged
entry is the value of the nutrient with the matching canonical id times
`quantity / 100`; a lookup on a missing nutrient id yields 0 and never fails;
a result with calories 50 per 100 units yields 100 calories at quantity 200
and all-zero macros at quantity 0. -/
theorem serving_macros_eq_lookup_times_multiplier :
    (∀ (u : ℕ) (food : FoodSearchResult) (q : ℚ) (un mt dt : String),
      (handleAddFood u food q un mt dt).calories
          = getNutrientValue food.nutrients 1008 * (q / 100) ∧
      (handleAddFood u food q un mt dt).protein
          = getNutrientValue food.nutrients 1003 * (q / 100) ∧
      (handleAddFood u food q un mt dt).carbs
          = getNutrientValue food.nutrients 1005 * (q / 100) ∧
      (handleAddFood u food q un mt dt).fat
          = getNutrientValue food.nutrients 1004 * (q / 100)) ∧
    (∀ (nutrients : List FoodNutrient) (nid : ℕ),
      (∀ n ∈ nutrients, n.nutrientId ≠ nid) → getNutrientValue nutrients nid = 0) ∧
    (handleAddFood 1 caloriesFiftyFood 200 "g" "breakfast" "2024-05-01").calories = 100 ∧
    (handleAddFood 1 caloriesFiftyFood 0 "g" "breakfast" "2024-05-01").calories = 0 ∧
    (handleAddFood 1 caloriesFiftyFood 0 "g" "breakfast" "2024-05-01").protein = 0 ∧
    (handleAddFood 1 caloriesFiftyFood 0 "g" "breakfast" "2024-05-01").carbs = 0 ∧
    (handleAddFood 1 caloriesFiftyFood 0 "g" "breakfast" "2024-05-01").fat = 0 := by
  refine ⟨fun u food q un mt dt => ⟨rfl, rfl, rfl, rfl⟩, ?_, ?_, ?_, ?_, ?_, ?_⟩
  · intro nutrients nid h
    unfold getNutrientValue
    rw [List.find?_eq_none.mpr (fun n hn => by simpa using h n hn)]
  · show (50 : ℚ) * (200 / 100) = 100
    norm_num
  · show (50 : ℚ) * (0 / 100) = 0
    norm_num
  · show (4 : ℚ) * (0 / 100) = 0
    norm_num
  · show (0 : ℚ) * (0 / 100) = 0
    norm_num
  · show (0 : ℚ) * (0 / 100) = 0
    norm_num

/-- Witness for C1: the missing-nutrient clause applied to the empty nutrient
list and the calories id. -/
theorem serving_macros_witness : getNutrientValue [] 1008 = 0 :=
  serving_macros_eq_lookup_times_multiplier.2.1 [] 1008 (by simp)

/-- Claim C2 (code bug): under the schedulable interleaving in which both
concurrent upserts read before either writes, the store ends with two
records for the same (userId, date) pair, while the sequential composition
of the same two steps leaves exactly one — the read-then-write upsert
violates the at-most-one-record-per-(user, date) invariant the claim
states. -/
theorem concurrent_upserts_insert_duplicate_record :
    ((twoConcurrentUpserts [] raceDayUpsert raceDayUpsert 1 2).filter
        (fun r => r.userId == 1 && r.date == "2024-05-01")).length = 2 ∧
    ((createOrUpdateWaterIntake [] raceDayUpsert 1).filter
        (fun r => r.userId == 1 && r.date == "2024-05-01")).length = 1 ∧
    ((createOrUpdateWaterIntake (createOrUpdateWaterIntake [] raceDayUpsert 1) raceDayUpsert 2).filter
        (fun r => r.userId == 1 && r.date == "2024-05-01")).length = 1 := by
  decide

/-- Claim C3: in `mode = all`, a query matching one custom food, one curated
food and one USDA food returns exactly the sequence custom result, curated
result, USDA result — fixed priority concatenation, no re-sorting, no
cross-source deduplication. -/
theorem all_mode_returns_custom_then_curated_then_usda :
    ∀ (query : String) (cfs : List CustomFood) (c : CustomFood)
      (i : IndianFood) (u : FoodSearchResult),
      2 ≤ query.length →
      ¬(query = "" ∨ (jsTrim query).length < 2) →
      cfs.filter (fun food => customFoodMatches food query) = [c] →
      trackFormAllSearch query (some cfs) (.ok [u]) (.ok [i])
        = [convertCustomFoodToSearchResult c, convertIndianFoodToSearchResult (some i), u] := by
  intro query cfs c i u h2 hq hf
  unfold trackFormAllSearch
  rw [if_neg (by omega)]
  unfold searchAllFoods
  rw [if_neg hq]
  simp [jsCatch, hf]

/-- Witness for C3: the query "dal" matching one record in every source
(all three share the same display name, and all three still appear). -/
theorem all_mode_order_witness :
    trackFormAllSearch "dal" (some [dalCustomFood]) (.ok [dalUsdaResult]) (.ok [dalIndianFood])
      = [convertCustomFoodToSearchResult dalCustomFood,
         convertIndianFoodToSearchResult (some dalIndianFood), dalUsdaResult] :=
  all_mode_returns_custom_then_curated_then_usda "dal" [dalCustomFood] dalCustomFood
    dalIndianFood dalUsdaResult (by decide) (by decide) (by decide)

/-- Counterexample to claim C4: the custom-food adapter does not populate all
seven canonical nutrient slots — on a record whose stored fiber is non-zero
it emits no fiber entry at all (only the four macro slots exist). -/
theorem custom_adapter_lacks_micro_slots :
    (convertCustomFoodToSearchResult paneerCustomFood).nutrients.find?
        (fun n => n.nutrientId == 1079) = none ∧
    (convertCustomFoodToSearchResult paneerCustomFood).nutrients.length = 4 ∧
    paneerCustomFood.fiber ≠ 0 := by
  decide

/-- Claim C4 as amended: the curated adapter populates all seven canonical
slots, defaulting each missing native field to 0, and maps a null record to
the "Invalid food data" placeholder with an empty nutrient list; the custom
adapter never fails but populates only the four macro slots, read directly
from the record, so lookups of fiber, calcium and iron on its output fall
back to 0. -/
theorem adapters_nutrient_slot_contract :
    (∀ food : IndianFood,
      (convertIndianFoodToSearchResult (some food)).nutrients.length = 7 ∧
      getNutrientValue (convertIndianFoodToSearchResult (some food)).nutrients 1008
          = jsOrNum food.calories 0 ∧
      getNutrientValue (convertIndianFoodToSearchResult (some food)).nutrients 1003
          = jsOrNum food.protein 0 ∧
      getNutrientValue (convertIndianFoodToSearchResult (some food)).nutrients 1005
          = jsOrNum food.carbs 0 ∧
      getNutrientValue (convertIndianFoodToSearchResult (some food)).nutrients 1004
          = jsOrNum food.fat 0 ∧
      getNutrientValue (convertIndianFoodToSearchResult (some food)).nutrients 1079
          = jsOrNum food.fiber 0 ∧
      getNutrientValue (convertIndianFoodToSearchResult (some food)).nutrients 1087
          = jsOrNum food.calcium 0 ∧
      getNutrientValue (convertIndianFoodToSearchResult (some food)).nutrients 1089
          = jsOrNum food.iron 0) ∧
    convertIndianFoodToSearchResult none =
      { fdcId := "invalid-food", description := "Invalid food data",
        nutrients := [], isIndianFood := true } ∧
    (∀ food : CustomFood,
      (convertCustomFoodToSearchResult food).nutrients.length = 4 ∧
      getNutrientValue (convertCustomFoodToSearchResult food).nutrients 1008 = food.calories ∧
      getNutrientValue (convertCustomFoodToSearchResult food).nutrients 1003 = food.protein ∧
      getNutrientValue (convertCustomFoodToSearchResult food).nutrients 1005 = food.carbs ∧
      getNutrientValue (convertCustomFoodToSearchResult food).nutrients 1004 = food.fat ∧
      getNutrientValue (convertCustomFoodToSearchResult food).nutrients 1079 = 0 ∧
      getNutrientValue (convertCustomFoodToSearchResult food).nutrients 1087 = 0 ∧
      getNutrientValue (convertCustomFoodToSearchResult food).nutrients 1089 = 0) :=
  ⟨fun _food => ⟨rfl, rfl, rfl, rfl, rfl, rfl, rfl, rfl⟩, rfl,
   fun _food => ⟨rfl, rfl, rfl, rfl, rfl, rfl, rfl, rfl⟩⟩

/-- Claim C5: canonical ids are pairwise disjoint across the three sources —
`indian-` tagged ids, `custom-` tagged ids and pass-through decimal USDA ids
never coincide, for every combination of native ids. -/
theorem source_id_tags_pairwise_disjoint :
    ∀ (a : IndianFood) (b : CustomFood) (n : ℕ),
      (convertIndianFoodToSearchResult (some a)).fdcId
          ≠ (convertCustomFoodToSearchResult b).fdcId ∧
      usdaFdcId n ≠ (convertIndianFoodToSearchResult (some a)).fdcId ∧
      usdaFdcId n ≠ (convertCustomFoodToSearchResult b).fdcId := by
  intro a b n
  refine ⟨?_, ?_, ?_⟩
  · show ("indian-" ++ Nat.repr a.id) ≠ ("custom-" ++ Nat.repr b.id)
    apply ne_of_data_ne
    rw [String.data_append, String.data_append]
    intro h
    have h1 : ("indian-".data ++ (Nat.repr a.id).data).head? = some 'i' := rfl
    have h2 : ("custom-".data ++ (Nat.repr b.id).data).head? = some 'c' := rfl
    rw [h, h2] at h1
    exact absurd (Option.some_inj.mp h1) (by decide)
  · show Nat.repr n ≠ ("indian-" ++ Nat.repr a.id)
    apply ne_of_data_ne
    obtain ⟨c, cs, hc, hd⟩ := repr_head_isDigit n
    rw [hc, String.data_append]
    intro h
    have h1 : (c :: cs).head? = some c := rfl
    have h2 : ("indian-".data ++ (Nat.repr a.id).data).head? = some 'i' := rfl
    rw [h, h2] at h1
    rw [Option.some_inj.mp h1.symm] at hd
    exact absurd hd (by decide)
  · show Nat.repr n ≠ ("custom-" ++ Nat.repr b.id)
    apply ne_of_data_ne
    obtain ⟨c, cs, hc, hd⟩ := repr_head_isDigit n
    rw [hc, String.data_append]
    intro h
    have h1 : (c :: cs).head? = some c := rfl
    have h2 : ("custom-".data ++ (Nat.repr b.id).data).head? = some 'c' := rfl
    rw [h, h2] at h1
    rw [Option.some_inj.mp h1.symm] at hd
    exact absurd hd (by decide)

/-- Counterexample to claim C6: a result whose calcium per 100 units is 5
(computed value 5 > 0 at quantity 100) renders no calcium at all, because
the whole micro-nutrient block is gated on the fiber value. -/
theorem micro_display_gated_on_raw_fiber :
    microNutrientDisplay calciumOnlyFood 100 = ⟨none, none, none⟩ ∧
    0 < getNutrientValue calciumOnlyFood.nutrients 1087 * ((100 : ℚ) / 100) := by
  constructor
  · decide
  · show (0 : ℚ) < 5 * (100 / 100)
    norm_num

/-- Claim C6 as amended: fiber is rendered iff its raw per-100 value is
positive (the gate tests the unscaled value, not the computed one); calcium
and iron are rendered iff the raw fiber value and their own raw value are
both positive; every rendered micro-nutrient is independently scaled by
`quantity / 100` and rounded. -/
theorem micro_display_presence_and_scaling :
    ∀ (food : FoodSearchResult) (quantity : ℚ),
    ((microNutrientDisplay food quantity).fiber.isSome = true ↔
        0 < getNutrientValue food.nutrients 1079) ∧
    ((microNutrientDisplay food quantity).calcium.isSome = true ↔
        0 < getNutrientValue food.nutrients 1079 ∧ 0 < getNutrientValue food.nutrients 1087) ∧
    ((microNutrientDisplay food quantity).iron.isSome = true ↔
        0 < getNutrientValue food.nutrients 1079 ∧ 0 < getNutrientValue food.nutrients 1089) ∧
    (∀ v, (microNutrientDisplay food quantity).fiber = some v →
        v = jsRound (getNutrientValue food.nutrients 1079 * (quantity / 100))) ∧
    (∀ v, (microNutrientDisplay food quantity).calcium = some v →
        v = jsRound (getNutrientValue food.nutrients 1087 * (quantity / 100))) ∧
    (∀ v, (microNutrientDisplay food quantity).iron = some v →
        v = jsRound (getNutrientValue food.nutrients 1089 * (quantity / 100))) := by
  intro food quantity
  unfold microNutrientDisplay
  by_cases h1 : 0 < getNutrientValue food.nutrients 1079 <;>
    by_cases h2 : 0 < getNutrientValue food.nutrients 1087 <;>
      by_cases h3 : 0 < getNutrientValue food.nutrients 1089 <;>
        simp [h1, h2, h3]

/-- Witness for C6: on a food with positive fiber and calcium, the rendered
calcium value is the rounded scaled value. -/
theorem micro_display_witness :
    (5 : ℤ) = jsRound (getNutrientValue fiberCalciumFood.nutrients 1087 * ((100 : ℚ) / 100)) := by
  apply (micro_display_presence_and_scaling fiberCalciumFood 100).2.2.2.2.1 5
  have hf : getNutrientValue fiberCalciumFood.nutrients 1079 = 4 := rfl
  have hc : getNutrientValue fiberCalciumFood.nutrients 1087 = 5 := rfl
  have hr : jsRound ((5 : ℚ) * (100 / 100)) = 5 := by
    have h5 : ((5 : ℚ) * (100 / 100)) = 5 := by norm_num
    rw [h5]
    unfold jsRound
    apply Int.floor_eq_iff.mpr
    constructor <;> norm_num
  unfold microNutrientDisplay
  rw [hf, hc, if_pos (by norm_num : (0 : ℚ) < 4)]
  show (if (0 : ℚ) < 5 then some (jsRound ((5 : ℚ) * (100 / 100))) else none) = some 5
  rw [if_pos (by norm_num : (0 : ℚ) < 5), hr]

/-- Claim C7: in `mode = all`, each source call is individually guarded, so
for every combination of per-source success and failure the combined search
still returns the surviving sources' results, a failing source contributing
the empty list; no combination aborts the search. -/
theorem all_mode_isolates_source_failures :
    ∀ (query : String), ¬(query = "" ∨ (jsTrim query).length < 2) →
    ∀ (us : List FoodSearchResult) (ins : List IndianFood),
      searchAllFoods query (.ok us) (.ok ins)
          = ins.map (fun f => convertIndianFoodToSearchResult (some f)) ++ us ∧
      searchAllFoods query (.error ()) (.ok ins)
          = ins.map (fun f => convertIndianFoodToSearchResult (some f)) ∧
      searchAllFoods query (.ok us) (.error ()) = us ∧
      searchAllFoods query (.error ()) (.error ()) = [] := by
  intro query hq us ins
  unfold searchAllFoods
  rw [if_neg hq, if_neg hq, if_neg hq, if_neg hq]
  simp [jsCatch]

/-- Witness for C7: both sources failing on the query "dal" still yields an
empty result list rather than a failure. -/
theorem all_mode_failure_witness :
    searchAllFoods "dal" (.error ()) (.error ()) = [] :=
  (all_mode_isolates_source_failures "dal" (by decide) [] []).2.2.2

/-- Claim C8: if any element of the submitted batch fails validation, the
batch endpoint answers 400 and the stored set of Indian foods is exactly
what it was before the request — nothing is partially committed. -/
theorem batch_invalid_element_rejects_whole_batch :
    ∀ {Raw Food : Type} (parse : Raw → Except String Food)
      (store : List Food) (foods : List Raw),
      (∃ f ∈ foods, ∃ msg, parse f = .error msg) →
      indianFoodsBatchHandler parse store (some foods) = (400, store) := by
  intro Raw Food parse store foods h
  obtain ⟨m, hm⟩ := exists_error_parseAll parse foods h
  simp [indianFoodsBatchHandler, hm]

/-- Witness for C8: a 3-element batch whose second element fails validation
is rejected with 400 and the two pre-existing records are untouched. -/
theorem batch_reject_witness :
    indianFoodsBatchHandler demoParse [1, 2] (some [3, 11, 4]) = (400, [1, 2]) :=
  batch_invalid_element_rejects_whole_batch demoParse [1, 2] [3, 11, 4]
    ⟨11, by decide, "invalid food", rfl⟩

/-- Counterexample to claim C9: the fetch-by-id operation of the custom-foods
interface carries no user filter, so a request made while browsing as user 1
still returns the record owned by user 2. -/
theorem custom_food_by_id_crosses_users :
    getCustomFoodById [bobCustomFood] 7 = some bobCustomFood ∧
    bobCustomFood.userId = 2 ∧ (2 : ℕ) ≠ 1 := by
  decide

/-- Claim C9 as amended: the list and search operations of the custom-foods
interface are user-scoped — every record they return belongs to the
requested user — but fetch-by-id is not filtered by user and can return
another user's record. -/
theorem custom_food_list_and_search_user_scoped :
    ∀ (store : List CustomFood) (userId : ℕ) (query : String) (f : CustomFood),
      (f ∈ getCustomFoods store userId → f.userId = userId) ∧
      (f ∈ searchCustomFoods store userId query → f.userId = userId) := by
  intro store userId query f
  constructor
  · intro h
    have h2 := mem_sortByFoodName h
    have h3 := (List.mem_filter.mp h2).2
    simpa using h3
  · intro h
    have h2 := List.take_subset 20 _ h
    have h3 := (List.mem_filter.mp h2).2
    have h4 := (Bool.and_eq_true _ _).mp h3
    simpa using h4.1

/-- Witness for C9: user 1's own record is returned by the scoped list
operation and indeed belongs to user 1. -/
theorem custom_food_scoped_witness : aliceCustomFood.userId = 1 :=
  (custom_food_list_and_search_user_scoped [aliceCustomFood] 1 "avocado" aliceCustomFood).1
    (by decide)

/-- Counterexample to claim C10: a PATCH supplying amount 0 on a record whose
stored amount is 500 leaves the amount at 500 — the `||` fallback treats the
valid value 0 as absent, so the claimed override does not happen. -/
theorem patch_zero_amount_retained :
    (patchWaterIntake [priorWaterRecord] 1 (some 0) none 2).2 = [priorWaterRecord] ∧
    priorWaterRecord.amount = 500 ∧ (500 : ℚ) ≠ 0 := by
  decide

/-- Claim C10 as amended: a PATCH on an existing record (under the
one-record-per-(user, date) invariant, expressed by the located record also
being the one the re-routed upsert finds) keeps the record's userId and date
and overrides amount and goal only by a supplied truthy (non-zero) value; a
supplied 0 and an absent field both retain the prior value. -/
theorem patch_partial_override_truthy :
    ∀ (store : List WaterIntakeRecord) (rid freshId : ℕ)
      (bodyAmount bodyGoal : Option ℚ) (existing : WaterIntakeRecord),
      store.find? (fun r => r.id == rid) = some existing →
      getWaterIntake store existing.userId existing.date = some existing →
      patchWaterIntake store rid bodyAmount bodyGoal freshId =
        (200, store.map (fun r =>
          if r.id == existing.id then
            { r with amount := jsOrNum bodyAmount existing.amount,
                     goal := jsOrNum bodyGoal existing.goal }
          else r)) := by
  intro store rid freshId bodyAmount bodyGoal existing h1 h2
  simp [patchWaterIntake, h1, createOrUpdateWaterIntake, getWaterIntake] at h2 ⊢
  simp [upsertWrite, getWaterIntake, h2]

/-- Witness for C10: patching the demo record with amount 250 updates the
amount, keeps the unsupplied goal, and keeps userId and date. -/
theorem patch_override_witness :
    patchWaterIntake [priorWaterRecord] 1 (some 250) none 2
      = (200, [{ priorWaterRecord with amount := 250 }]) := by
  rw [patch_partial_override_truthy [priorWaterRecord] 1 2 (some 250) none priorWaterRecord
    (by decide) (by decide)]
  decide
